import Mathlib

/-!
Shallow embedding of the GeoCom serial-protocol layer (`src/GeoCom.py`) and the
prism-tracking loop (`src/track.py`) of the Leica-TPS-1200 repository.

Python strings are modelled as `List Char`; the bytes/str distinction of the
serial library is outside the model.  Python exceptions are modelled with
`Option` (parsing) and with explicit `crash` / `raised` outcome constructors
(uncaught exception vs. a raised `SerialRequestError`).
-/

/-- Python whitespace characters recognised by `str.strip()`. -/
def isPySpace (c : Char) : Bool :=
  c = ' ' || c = '\t' || c = '\n' || c = '\r' || c = '\x0b' || c = '\x0c'

/-- Python `str.strip()`: drop whitespace from both ends. -/
def pyStrip (s : List Char) : List Char :=
  ((s.dropWhile isPySpace).reverse.dropWhile isPySpace).reverse

/-- Python `str.replace` with a quote pattern and empty replacement: delete every single-quote character. -/
def stripQuotes (s : List Char) : List Char :=
  s.filter (fun c => c ≠ '\'')

/-- Python `str.split(sep)` for a one-character separator: splits at every occurrence
of `c`, keeping empty tokens, and yields `[s]` when `c` does not occur
(in particular `[[]]` on the empty string, as in Python). -/
def splitChar (c : Char) : List Char → List (List Char)
  | [] => [[]]
  | x :: rest =>
    match splitChar c rest with
    | [] => [[x]]
    | h :: t => if x = c then [] :: h :: t else (x :: h) :: t

/-- Decimal digit test. -/
def isDigit (c : Char) : Bool := '0' ≤ c && c ≤ '9'

/-- Value of a decimal digit. -/
def digitVal (c : Char) : Nat := c.toNat - '0'.toNat

/-- Parse a nonempty all-digit string to a natural number. -/
def parseNatDigits : List Char → Option Nat
  | [] => none
  | cs => cs.foldlM (fun acc c => if isDigit c then some (acc * 10 + digitVal c) else none) 0

/-- Python `int(str)`: strip whitespace, optional sign, nonempty digit run.
(Digit-group underscores, accepted by Python 3.6+, are not modelled; no
caller of this code produces them.)  `none` models a raised `ValueError`. -/
def pyInt (s : List Char) : Option Int :=
  match pyStrip s with
  | '+' :: rest => (parseNatDigits rest).map Int.ofNat
  | '-' :: rest => (parseNatDigits rest).map (fun n => -(n : Int))
  | t => (parseNatDigits t).map Int.ofNat

/-- Optional exponent part of a Python float literal: empty, or `e`/`E`
followed by an optionally signed nonempty digit run. -/
def pyExpOk : List Char → Bool
  | [] => true
  | 'e' :: rest =>
    (match rest with
     | '+' :: ds => !ds.isEmpty && ds.all isDigit
     | '-' :: ds => !ds.isEmpty && ds.all isDigit
     | ds => !ds.isEmpty && ds.all isDigit)
  | 'E' :: rest =>
    (match rest with
     | '+' :: ds => !ds.isEmpty && ds.all isDigit
     | '-' :: ds => !ds.isEmpty && ds.all isDigit
     | ds => !ds.isEmpty && ds.all isDigit)
  | _ => false

/-- Unsigned mantissa (plus optional exponent) of a Python float literal. -/
def pyFloatBody (s : List Char) : Bool :=
  let ip := s.takeWhile isDigit
  match s.dropWhile isDigit with
  | [] => !ip.isEmpty
  | '.' :: r2 =>
    let fp := r2.takeWhile isDigit
    (!ip.isEmpty || !fp.isEmpty) && pyExpOk (r2.dropWhile isDigit)
  | rest => !ip.isEmpty && pyExpOk rest

/-- Whether Python `float(str)` succeeds: strip whitespace, optional sign,
then a numeric literal or `inf`/`infinity`/`nan` (case-insensitive).
`false` models a raised `ValueError`. -/
def pyFloatable (s : List Char) : Bool :=
  let t :=
    match pyStrip s with
    | '+' :: r => r
    | '-' :: r => r
    | t => t
  let low := t.map Char.toLower
  low = "inf".toList || low = "infinity".toList || low = "nan".toList || pyFloatBody t

/-- The `GeoCom.ResponseClass`: communication return code, transaction id,
request return code and returned parameters, with the source's defaults. -/
structure ResponseClass where
  RC_COM : Int := 0
  TrId : Int := 0
  RC : Int := 0
  parameters : List (List Char) := []
deriving DecidableEq, Repr

/-- Embeds `ResponseClass.setResponse` (GeoCom.py lines 42-61): strip quotes and
whitespace, split on commas; with more than one token parse
`words[1]` as `RC_COM` and `words[2]` as `TrId:RC`, taking `words[3:]` as
the parameters; with at most one token leave every field at its default.
`none` models an exception escaping the method (`ValueError` from `int`,
`IndexError` from a missing token or missing `:` field). -/
def setResponse (response : List Char) : Option ResponseClass :=
  let words := splitChar ',' (pyStrip (stripQuotes response))
  if 1 < words.length then do
    let w1 ← words[1]?
    let rcCom ← pyInt w1
    let w2 ← words[2]?
    let words2 := splitChar ':' w2
    let trStr ← words2[0]?
    let trId ← pyInt trStr
    let rcStr ← words2[1]?
    let rc ← pyInt rcStr
    pure { RC_COM := rcCom, TrId := trId, RC := rc, parameters := words.drop 3 }
  else
    pure {}

/-- Embeds `GeoCom.getTrId` (lines 88-98): parse the transaction id out of an ASCII
request.  `none` models an exception (the call sits outside any `try`). -/
def getTrId (request : List Char) : Option Int := do
  let words := splitChar ',' (pyStrip (stripQuotes request))
  let w2 ← words[2]?
  let words2 := splitChar ':' w2
  let w ← words2[0]?
  pyInt w

/-- One pass of the `SerialRequest` polling loop (lines 128-130) on a discrete
clock: at tick `t` keep waiting while the buffered byte count fails the
expected-length policy and `t` is still below the deadline `T`.  `inWaiting t`
is the channel's buffered byte count at tick `t`; the fuel argument equals
`T - t`, making the loop's termination structural. -/
def pollGo (inWaiting : Nat → Nat) (expLength T : Nat) : Nat → Nat → Nat
  | 0, t => t
  | fuel + 1, t =>
    if (inWaiting t < expLength ∨ (expLength = 0 ∧ inWaiting t = 0)) ∧ t < T then
      pollGo inWaiting expLength T fuel (t + 1)
    else t

/-- Tick at which the polling loop of `SerialRequest` exits. -/
def pollLoop (inWaiting : Nat → Nat) (expLength T : Nat) : Nat :=
  pollGo inWaiting expLength T T 0

/-- Result of one `SerialRequest` call: a returned `ResponseClass`, a raised
`SerialRequestError`, or an uncaught exception (`getTrId` fails before the
`try` block). -/
inductive SerialOutcome where
  | resp (r : ResponseClass)
  | raised
  | crash
deriving DecidableEq, Repr

/-- A `SerialRequest` call together with the bytes it wrote to the channel
(`none` when the call crashed before writing). -/
structure SerialResult where
  written : Option (List Char) := none
  out : SerialOutcome
deriving DecidableEq, Repr

/-- The CR-LF terminator appended by `SerialRequest` before writing. -/
def CRLF : List Char := ['\r', '\n']

/-- Embeds `GeoCom.SerialRequest` (lines 101-147).  `request` is the ASCII request,
`inWaiting` the channel's buffered byte count per tick (after the initial
drain), `incoming` the bytes read once data is available, `expLength` the
`length` parameter and `T` the timeout in ticks.  Steps: parse the
transaction id (outside `try`: failure is a crash); write `request ++ CRLF`;
poll; if the deadline was reached return a fresh response with `RC = 3077`;
otherwise decode, mapping a decode exception to the raised
`SerialRequestError`, overwriting `RC` with `3077` on a transaction-id
mismatch, and returning the decoded response otherwise.  Transport faults
(device unplugged) are outside the channel model. -/
def SerialRequest (request : List Char) (inWaiting : Nat → Nat) (incoming : List Char)
    (expLength T : Nat) : SerialResult :=
  match getTrId request with
  | none => { written := none, out := .crash }
  | some id =>
    let w := some (request ++ CRLF)
    if T ≤ pollLoop inWaiting expLength T then
      { written := w, out := .resp { RC := 3077 } }
    else
      match setResponse incoming with
      | none => { written := w, out := .raised }
      | some r =>
        if r.TrId ≠ id then { written := w, out := .resp { r with RC := 3077 } }
        else { written := w, out := .resp r }

/-- Initial value of the module-level transaction counter `GTrId`
(GeoCom.py line 12). -/
def GTrId0 : Int := 0

/-- Embeds `GeoCom.CreateRequest` (lines 163-190), with the global counter made an
explicit argument: returns the request built for command `cmd` (already in its
`str(cmd)` wire form) and the new counter value.  With `args = none` (the
parameter's default) the function falls off its end, returning `none`; with an
empty list it returns the bare `"\n%R1Q,<cmd>,<trid>:"` line; with a nonempty
list the loop appends every argument followed by a comma and then appends
`args[-1]` once more.  The counter is incremented, wrapping `8` to `0`,
before the argument processing, on every call. -/
def CreateRequest (cmd : String) (args : Option (List String)) (gtrid : Int) :
    Option String × Int :=
  let request := "\n%R1Q," ++ cmd ++ "," ++ toString gtrid ++ ":"
  let g1 := gtrid + 1
  let g2 := if g1 = 8 then 0 else g1
  match args with
  | none => (none, g2)
  | some as =>
    if 0 < as.length then
      (some ((as.foldl (fun r a => r ++ a ++ ",") request) ++ as.getLastD ""), g2)
    else
      (some request, g2)

/-- Transaction counter after a sequence of `CreateRequest` calls, each given
by its command and argument list. -/
def runCreates : List (String × Option (List String)) → Int → Int
  | [], g => g
  | (c, a) :: rest, g => runCreates rest (CreateRequest c a g).2

/-- Request part of `GeoCom.TMC_QuickDist` (lines 1117-1128): the wrapper
calls `CreateRequest('2117')` with the `args` parameter omitted and passes
the result on to `SerialRequest`. -/
def TMC_QuickDist_request (gtrid : Int) : Option String × Int :=
  CreateRequest "2117" none gtrid

/-- Tracking state of `track.py`: the module-level `OLD_COORD` (last known
target coordinates, as the raw parameter tokens of the last full measurement)
and `FAIL_COUNT` (consecutive distance-measurement failures). -/
structure TrackState where
  OLD_COORD : List (List Char)
  FAIL_COUNT : Nat
deriving DecidableEq, Repr

/-- Initial module state of `track.py` (lines 22-23): `OLD_COORD = [0, 0, 0]`
(the integers modelled by their decimal literals — `float` accepts both) and
`FAIL_COUNT = 0`. -/
def initTrackState : TrackState := { OLD_COORD := [['0'], ['0'], ['0']], FAIL_COUNT := 0 }

/-- Outcome of the `TMC_GetSimpleMea(150, 1)` call feeding `get_measure`:
either a `[error, RC, coord]` triple (the unused `error` component elided)
or a raised `GeoCom.SerialRequestError`. -/
inductive MeasureInput where
  | meas (rc : Int) (coord : List (List Char))
  | serialErr
deriving DecidableEq, Repr

/-- Outcome of evaluating `float(coord[0]), float(coord[1]), float(coord[2])`
left to right, as in the `compute_carthesian(...)` call of `get_measure`:
a missing element raises `IndexError` (uncaught there), a non-numeric token
raises `ValueError` (caught there). -/
inductive ConvOutcome where
  | ok
  | valueError
  | indexError
deriving DecidableEq, Repr

/-- Python `float(coord[i])` for a single index. -/
def convertAt (coord : List (List Char)) (i : Nat) : ConvOutcome :=
  match coord[i]? with
  | none => .indexError
  | some s => if pyFloatable s then .ok else .valueError

/-- The three conversions of the `compute_carthesian` call, first failure
wins. -/
def convertThree (coord : List (List Char)) : ConvOutcome :=
  match convertAt coord 0 with
  | .ok =>
    match convertAt coord 1 with
    | .ok => convertAt coord 2
    | e => e
  | e => e

/-- Result of one `get_measure` call: normal return with the new state, the
returned tag and the recovery search center used (if a recovery ran); or the
recovery loop never terminating; or an uncaught exception. -/
structure StepOut where
  state : TrackState
  ret : String
  recovery : Option (List Char × List Char)
deriving DecidableEq, Repr

/-- See `StepOut`. -/
inductive StepResult where
  | ok (o : StepOut)
  | diverge
  | crash
deriving DecidableEq, Repr

/-- The recovery search of `get_measure` (track.py lines 261-264):
`powerSearchPrism` is called first with the default window and, while it keeps
failing, again with the wide `(6.28, 2)` window; the loop exits at the first
success.  Each list element is one search attempt's result; a list exhausted
without a success models an endless run of failed searches (divergence). -/
def searchLoop : List Bool → Bool
  | [] => false
  | s :: rest => if s then true else searchLoop rest

/-- The `try` block of `track.get_measure` (lines 266-302), after the
measurement outcome `inp` arrived.  Branches: `RC == 0` records `OLD_COORD`,
converts the coordinates (a `ValueError` is caught: `FAIL_COUNT` increments
and `"3"` is returned; an `IndexError` is not), then resets `FAIL_COUNT` and
returns the `'0;...'` result (numeric payload elided, the Cartesian
conversion is modelled separately); `RC == 1284` likewise records `OLD_COORD`
and returns `'1;...'` but leaves `FAIL_COUNT` untouched (the increment in the
source is commented out and no reset is performed); `RC == 1285 or 1288`
increments `FAIL_COUNT`, rebinds the local `coord` to `OLD_COORD` and returns
`"2"`; any other `RC` increments `FAIL_COUNT` and returns `"3"`; a raised
`SerialRequestError` returns `"4"` leaving the state untouched.  `rec` is
threaded through to report the recovery center of the surrounding call. -/
def measureBody (inp : MeasureInput) (st : TrackState)
    (rec : Option (List Char × List Char)) : StepResult :=
  match inp with
  | .serialErr => .ok { state := st, ret := "4", recovery := rec }
  | .meas rc coord =>
    if rc = 0 then
      let st1 : TrackState := { st with OLD_COORD := coord }
      match convertThree coord with
      | .ok => .ok { state := { st1 with FAIL_COUNT := 0 }, ret := "0", recovery := rec }
      | .valueError =>
        .ok { state := { st1 with FAIL_COUNT := st1.FAIL_COUNT + 1 }, ret := "3", recovery := rec }
      | .indexError => .crash
    else if rc = 1284 then
      let st1 : TrackState := { st with OLD_COORD := coord }
      match convertThree coord with
      | .ok => .ok { state := st1, ret := "1", recovery := rec }
      | .valueError =>
        .ok { state := { st1 with FAIL_COUNT := st1.FAIL_COUNT + 1 }, ret := "3", recovery := rec }
      | .indexError => .crash
    else if rc = 1285 ∨ rc = 1288 then
      .ok { state := { st with FAIL_COUNT := st.FAIL_COUNT + 1 }, ret := "2", recovery := rec }
    else
      .ok { state := { st with FAIL_COUNT := st.FAIL_COUNT + 1 }, ret := "3", recovery := rec }

/-- Embeds `track.get_measure` (lines 242-302), with the module state, the recovery
search results and the measurement outcome made explicit.  On entry, when
`FAIL_COUNT > 100`, a recovery runs: `powerSearchPrism(float(OLD_COORD[0]),
float(OLD_COORD[1]))` — centered on the last known coordinates — retried with
the wide window until a search succeeds, after which `FAIL_COUNT` is reset
to `0`; a missing or non-numeric `OLD_COORD` entry raises outside any `try`
(crash).  Then the `try` block `measureBody` handles the measurement. -/
def get_measure (searches : List Bool) (inp : MeasureInput) (st : TrackState) : StepResult :=
  if 100 < st.FAIL_COUNT then
    match st.OLD_COORD[0]?, st.OLD_COORD[1]? with
    | some c0, some c1 =>
      if pyFloatable c0 && pyFloatable c1 then
        if searchLoop searches then
          measureBody inp { st with FAIL_COUNT := 0 } (some (c0, c1))
        else .diverge
      else .crash
    | _, _ => .crash
  else
    measureBody inp st none

/-- Iterated `get_measure`: run one step per list element (each element gives
that step's recovery-search results and measurement outcome), collecting each
step's recovery center.  `none` when some step crashes or diverges. -/
def runMeasures : List (List Bool × MeasureInput) → TrackState →
    Option (TrackState × List (Option (List Char × List Char)))
  | [], st => some (st, [])
  | (searches, inp) :: rest, st =>
    match get_measure searches inp st with
    | .ok o => (runMeasures rest o.state).map (fun p => (p.1, o.recovery :: p.2))
    | _ => none

/-- Rounding to 4 decimal places, `round(x, 4)` of the source over the reals
(round-half-up at the .00005 ties, where Python's float rounding is
half-to-even; no claim involves a tie). -/
noncomputable def round4 (x : ℝ) : ℝ := (round (x * 10000) : ℤ) / 10000

/-- Embeds `track.compute_carthesian` (lines 220-240): spherical-to-Cartesian
conversion, each coordinate rounded to 4 decimal places.  The source formats
the triple as an `"x;y;z;"` string; the embedding returns the numeric
triple. -/
noncomputable def compute_carthesian (phi theta radius : ℝ) : ℝ × ℝ × ℝ :=
  (round4 (Real.sin theta * Real.cos phi * radius),
   round4 (Real.sin theta * Real.sin phi * radius),
   round4 (Real.cos theta * radius))

/-! ## Transaction counter and request framing -/

/-- The counter update of `CreateRequest` is the same on every call:
increment, wrapping `8` to `0`, independent of command and arguments. -/
theorem CreateRequest_snd (c : String) (a : Option (List String)) (g : Int) :
    (CreateRequest c a g).2 = if g + 1 = 8 then 0 else g + 1 := by
  unfold CreateRequest
  cases a with
  | none => rfl
  | some as =>
    by_cases h : 0 < as.length <;> simp [h]

/-- On the reachable range the counter update is increment mod 8. -/
theorem CreateRequest_snd_mod (c : String) (a : Option (List String)) (g : Int)
    (h0 : 0 ≤ g) (h8 : g < 8) : (CreateRequest c a g).2 = (g + 1) % 8 := by
  rw [CreateRequest_snd]
  split <;> omega

/-- Counter after a call sequence, from any in-range start. -/
theorem runCreates_mod (calls : List (String × Option (List String))) :
    ∀ g : Int, 0 ≤ g → g < 8 → runCreates calls g = (g + calls.length) % 8 := by
  induction calls with
  | nil => intro g h0 h8; simp [runCreates]; omega
  | cons p rest ih =>
    intro g h0 h8
    obtain ⟨c, a⟩ := p
    show runCreates rest (CreateRequest c a g).2 = _
    rw [CreateRequest_snd_mod c a g h0 h8]
    rw [ih ((g + 1) % 8) (by omega) (by omega)]
    simp only [List.length_cons]
    omega

/-- A left fold that only appends grows its accumulator on the right. -/
theorem foldl_app_grows (as : List String) :
    ∀ r : String, ∃ t, as.foldl (fun r a => r ++ a ++ ",") r = r ++ t := by
  induction as with
  | nil => intro r; exact ⟨"", (String.append_empty r).symm⟩
  | cons a rest ih =>
    intro r
    obtain ⟨t, ht⟩ := ih (r ++ a ++ ",")
    refine ⟨a ++ "," ++ t, ?_⟩
    simp only [List.foldl_cons]
    show List.foldl (fun r a => r ++ a ++ ",") (r ++ a ++ ",") rest = _
    rw [ht]
    simp only [String.append_assoc]

/-- Request string built by `CreateRequest` for a nonempty argument list. -/
theorem CreateRequest_fst_some (c : String) (as : List String) (g : Int) (h : 0 < as.length) :
    (CreateRequest c (some as) g).1 =
      some (as.foldl (fun r a => r ++ a ++ ",") ("\n%R1Q," ++ c ++ "," ++ toString g ++ ":")
            ++ as.getLastD "") := by
  unfold CreateRequest
  simp [h]

/-- Request string built by `CreateRequest` for an empty argument list. -/
theorem CreateRequest_fst_empty (c : String) (g : Int) :
    (CreateRequest c (some []) g).1 = some ("\n%R1Q," ++ c ++ "," ++ toString g ++ ":") := rfl

/-- Claim C7: the global transaction counter starts at 0, stays an integer in
`[0,7]` after every `CreateRequest` call, is incremented mod 8 on every call
regardless of command content or arguments, and the transaction id embedded in
the N-th created request (counting from 0) equals `N mod 8`: after any
sequence of `calls` the counter equals `|calls| mod 8` and the next request's
wire line embeds exactly that value in its id field. -/
theorem GTrId_cycles_mod8 :
    GTrId0 = 0 ∧
    (∀ calls, runCreates calls GTrId0 = (calls.length : Int) % 8) ∧
    (∀ calls, 0 ≤ runCreates calls GTrId0 ∧ runCreates calls GTrId0 < 8) ∧
    (∀ calls c a, (CreateRequest c a (runCreates calls GTrId0)).2
        = (runCreates calls GTrId0 + 1) % 8) ∧
    (∀ calls c as, ∃ tail, (CreateRequest c (some as) (runCreates calls GTrId0)).1
        = some ("\n%R1Q," ++ c ++ "," ++ toString ((calls.length : Int) % 8) ++ ":" ++ tail)) := by
  have hmod : ∀ calls, runCreates calls GTrId0 = (calls.length : Int) % 8 := by
    intro calls
    have h := runCreates_mod calls 0 le_rfl (by norm_num)
    simpa [GTrId0] using h
  refine ⟨rfl, hmod, ?_, ?_, ?_⟩
  · intro calls
    rw [hmod]
    omega
  · intro calls c a
    exact CreateRequest_snd_mod c a _ (by rw [hmod]; omega) (by rw [hmod]; omega)
  · intro calls c as
    rw [hmod]
    by_cases h : 0 < as.length
    · obtain ⟨t0, ht0⟩ :=
        foldl_app_grows as ("\n%R1Q," ++ c ++ "," ++ toString ((calls.length : Int) % 8) ++ ":")
      refine ⟨t0 ++ as.getLastD "", ?_⟩
      rw [CreateRequest_fst_some c as _ h, ht0]
      simp only [String.append_assoc]
    · have hnil : as = [] := List.eq_nil_of_length_eq_zero (by omega)
      subst hnil
      exact ⟨"", by rw [CreateRequest_fst_empty, String.append_empty]⟩

/-- Claim C9: `CreateRequest` with the `args` parameter omitted (`none`, its
default) returns no request string, yet advances the transaction counter
exactly as any other call does; the catalogue wrapper `TMC_QuickDist`,
which omits `args`, therefore passes `none` on to `SerialRequest`. -/
theorem CreateRequest_none_returns_none :
    (∀ cmd g, (CreateRequest cmd none g).1 = none) ∧
    (∀ cmd g, (CreateRequest cmd none g).2 = if g + 1 = 8 then 0 else g + 1) ∧
    (∀ cmd g args, (CreateRequest cmd none g).2 = (CreateRequest cmd args g).2) ∧
    (∀ g, (TMC_QuickDist_request g).1 = none) := by
  refine ⟨fun cmd g => rfl, fun cmd g => CreateRequest_snd cmd none g, ?_, fun g => rfl⟩
  intro cmd g args
  rw [CreateRequest_snd, CreateRequest_snd]

/-- Claim C3, failing input: the encoding bug behind the claim: for a nonempty argument list the
loop of `CreateRequest` appends every argument followed by a comma and then
appends `args[-1]` a second time, so the produced wire line carries the last
argument twice — `"\n%R1Q,2008,0:1,1"` for the single argument `"1"` instead
of the claimed `"\n%R1Q,2008,0:1"`.  The empty-argument form and the CR-LF
terminator appended by `SerialRequest` before writing match the claim. -/
theorem CreateRequest_duplicates_last_arg :
    CreateRequest "2008" (some ["1"]) 0 = (some "\n%R1Q,2008,0:1,1", 1) ∧
    CreateRequest "2108" (some ["150", "1"]) 0 = (some "\n%R1Q,2108,0:150,1,1", 1) ∧
    CreateRequest "2021" (some []) 0 = (some "\n%R1Q,2021,0:", 1) ∧
    (SerialRequest "\n%R1Q,2008,0:1,1".toList (fun _ => 1) [] 0 1).written
      = some ("\n%R1Q,2008,0:1,1".toList ++ CRLF) := by
  refine ⟨rfl, rfl, rfl, rfl⟩

/-! ## Serial request/response handling -/

/-- A string without the separator splits into one token, as in Python. -/
theorem splitChar_no_sep (c : Char) (s : List Char) (h : c ∉ s) : splitChar c s = [s] := by
  induction s with
  | nil => rfl
  | cons x rest ih =>
    have hx : ¬ x = c := fun hxc => h (by rw [hxc]; exact List.mem_cons_self c rest)
    have hr : c ∉ rest := fun hm => h (List.mem_cons_of_mem x hm)
    simp [splitChar, ih hr, hx]

/-- A decode that reaches the transaction-id field and finds no `:` in it
raises: every continuation of `setResponse` past that point fails
(`int` on the whole token may succeed or not; the access to the missing
return-code half fails regardless). -/
theorem setResponse_missing_colon (incoming w2 : List Char)
    (hlen : 1 < (splitChar ',' (pyStrip (stripQuotes incoming))).length)
    (hw2 : (splitChar ',' (pyStrip (stripQuotes incoming)))[2]? = some w2)
    (hc : ':' ∉ w2) :
    setResponse incoming = none := by
  simp only [setResponse]
  rw [if_pos hlen]
  cases h1 : (splitChar ',' (pyStrip (stripQuotes incoming)))[1]? with
  | none => rfl
  | some w1 =>
    simp only [Option.bind_eq_bind, Option.some_bind]
    cases h2 : pyInt w1 with
    | none => rfl
    | some rcCom =>
      simp only [Option.bind_eq_bind, Option.some_bind, hw2, splitChar_no_sep ':' w2 hc,
        List.getElem?_cons_zero, List.getElem?_cons_succ, List.getElem?_nil]
      cases h4 : pyInt w2 with
      | none => rfl
      | some tr => rfl

/-- Polling a channel on which nothing arrives runs to the deadline. -/
theorem pollGo_quiet (inWaiting : Nat → Nat) (expLength T : Nat)
    (h : ∀ t, t < T → inWaiting t = 0) :
    ∀ fuel t, t + fuel = T → pollGo inWaiting expLength T fuel t = T := by
  intro fuel
  induction fuel with
  | zero =>
    intro t ht
    simp only [pollGo]
    omega
  | succ n ih =>
    intro t ht
    have htT : t < T := by omega
    have hcond : (inWaiting t < expLength ∨ (expLength = 0 ∧ inWaiting t = 0)) ∧ t < T := by
      refine ⟨?_, htT⟩
      rcases Nat.eq_zero_or_pos expLength with h0 | h0
      · exact Or.inr ⟨h0, h t htT⟩
      · exact Or.inl (by have := h t htT; omega)
    rw [pollGo, if_pos hcond]
    exact ih (t + 1) (by omega)

/-- The polling loop of `SerialRequest` exits exactly at the deadline when no
bytes ever arrive before it. -/
theorem pollLoop_quiet (inWaiting : Nat → Nat) (expLength T : Nat)
    (h : ∀ t, t < T → inWaiting t = 0) :
    pollLoop inWaiting expLength T = T :=
  pollGo_quiet inWaiting expLength T h T 0 (by omega)

/-- Claim C6: if no bytes arrive on the channel before the timeout elapses,
`SerialRequest` returns the timeout outcome — a fresh response whose return
code is 3077 — whatever bytes a later read would have produced (the
conclusion holds for every `incoming`, i.e. nothing further is read), and
the polling loop terminates at the deadline rather than blocking. -/
theorem SerialRequest_timeout_3077 (request : List Char) (inWaiting : Nat → Nat)
    (expLength T : Nat) (id : Int)
    (hid : getTrId request = some id)
    (hq : ∀ t, t < T → inWaiting t = 0) :
    ∀ incoming, SerialRequest request inWaiting incoming expLength T =
      { written := some (request ++ CRLF),
        out := .resp { RC_COM := 0, TrId := 0, RC := 3077, parameters := [] } } := by
  intro incoming
  simp only [SerialRequest, hid]
  rw [pollLoop_quiet inWaiting expLength T hq, if_pos le_rfl]

/-- Witness for C6 at a concrete request and a silent channel. -/
theorem SerialRequest_timeout_3077_witness :
    SerialRequest "\n%R1Q,2117,0:".toList (fun _ => 0) "ignored".toList 0 3 =
      { written := some ("\n%R1Q,2117,0:".toList ++ CRLF),
        out := .resp { RC_COM := 0, TrId := 0, RC := 3077, parameters := [] } } :=
  SerialRequest_timeout_3077 "\n%R1Q,2117,0:".toList (fun _ => 0) 0 3 0
    (by decide) (fun _ _ => rfl) "ignored".toList

/-- Claim C4: if bytes arrive within the deadline but the decoded reply's
transaction id differs from the request's, `SerialRequest` returns the
timeout outcome: the response it hands back has its return code overwritten
with 3077, never the decoded return code of the stale frame. -/
theorem SerialRequest_trid_mismatch_timeout (request incoming : List Char)
    (inWaiting : Nat → Nat) (expLength T : Nat) (id : Int) (r : ResponseClass)
    (hid : getTrId request = some id)
    (hpoll : pollLoop inWaiting expLength T < T)
    (hdec : setResponse incoming = some r)
    (hne : r.TrId ≠ id) :
    SerialRequest request inWaiting incoming expLength T =
      { written := some (request ++ CRLF), out := .resp { r with RC := 3077 } } := by
  simp only [SerialRequest, hid, hdec]
  rw [if_neg (not_le.mpr hpoll), if_pos hne]

/-- Witness for C4: a reply carrying transaction id 4 answers a request with
transaction id 3; the call resolves to return code 3077. -/
theorem SerialRequest_trid_mismatch_timeout_witness :
    SerialRequest "\n%R1Q,2108,3:150,1".toList (fun _ => 9) "'%R1P,0,4:0,11,22,33'".toList 0 5 =
      { written := some ("\n%R1Q,2108,3:150,1".toList ++ CRLF),
        out := .resp { RC_COM := 0, TrId := 4, RC := 3077,
                       parameters := ["11".toList, "22".toList, "33".toList] } } :=
  SerialRequest_trid_mismatch_timeout "\n%R1Q,2108,3:150,1".toList
    "'%R1P,0,4:0,11,22,33'".toList (fun _ => 9) 0 5 3
    { RC_COM := 0, TrId := 4, RC := 0, parameters := ["11".toList, "22".toList, "33".toList] }
    (by decide) (by decide) (by decide) (by decide)

/-- Claim C5: a structurally malformed reply whose transaction-id/return-code
field is missing the `:` separator makes `SerialRequest` resolve to the
raised `SerialRequestError` — the code's malformed-frame outcome — rather
than crash with an uncaught exception or return a response with partially
parsed field values. -/
theorem SerialRequest_malformed_raises (request incoming w2 : List Char)
    (inWaiting : Nat → Nat) (expLength T : Nat) (id : Int)
    (hid : getTrId request = some id)
    (hpoll : pollLoop inWaiting expLength T < T)
    (hlen : 1 < (splitChar ',' (pyStrip (stripQuotes incoming))).length)
    (hw2 : (splitChar ',' (pyStrip (stripQuotes incoming)))[2]? = some w2)
    (hc : ':' ∉ w2) :
    SerialRequest request inWaiting incoming expLength T =
      { written := some (request ++ CRLF), out := .raised } := by
  simp only [SerialRequest, hid, setResponse_missing_colon incoming w2 hlen hw2 hc]
  rw [if_neg (not_le.mpr hpoll)]

/-- Witness for C5: the reply `'%R1P,0,437'` has no `:` in its third field. -/
theorem SerialRequest_malformed_raises_witness :
    SerialRequest "\n%R1Q,2108,3:150,1".toList (fun _ => 9) "'%R1P,0,437'".toList 0 5 =
      { written := some ("\n%R1Q,2108,3:150,1".toList ++ CRLF), out := .raised } :=
  SerialRequest_malformed_raises "\n%R1Q,2108,3:150,1".toList "'%R1P,0,437'".toList
    "437".toList (fun _ => 9) 0 5 3 (by decide) (by decide) (by decide) (by decide) (by decide)

/-- Claim C10: a reply whose comma-split (after stripping quote characters and
whitespace) yields at most one token leaves every `setResponse` field at its
default — communication code 0, transaction id 0, return code 0, empty
parameters — without any error; such a frame is indistinguishable from a
clean success with transaction id 0, and `SerialRequest` hands it back as a
success whenever the pending request's transaction id is 0. -/
theorem setResponse_short_default (incoming : List Char)
    (hshort : (splitChar ',' (pyStrip (stripQuotes incoming))).length ≤ 1) :
    setResponse incoming = some { RC_COM := 0, TrId := 0, RC := 0, parameters := [] } ∧
    (∀ request inWaiting expLength T,
       getTrId request = some 0 →
       pollLoop inWaiting expLength T < T →
       SerialRequest request inWaiting incoming expLength T =
         { written := some (request ++ CRLF),
           out := .resp { RC_COM := 0, TrId := 0, RC := 0, parameters := [] } }) := by
  have hs : setResponse incoming = some { RC_COM := 0, TrId := 0, RC := 0, parameters := [] } := by
    simp only [setResponse]
    rw [if_neg (not_lt.mpr hshort)]
    rfl
  refine ⟨hs, ?_⟩
  intro request inWaiting expLength T hid hpoll
  simp only [SerialRequest, hid, hs]
  rw [if_neg (not_le.mpr hpoll)]
  simp

/-- Witness for C10: a one-token garbage frame answers a request whose
transaction id is 0 and is returned as a clean success. -/
theorem setResponse_short_default_witness :
    setResponse "garbage".toList = some { RC_COM := 0, TrId := 0, RC := 0, parameters := [] } ∧
    SerialRequest "\n%R1Q,2117,0:".toList (fun _ => 5) "garbage".toList 0 3 =
      { written := some ("\n%R1Q,2117,0:".toList ++ CRLF),
        out := .resp { RC_COM := 0, TrId := 0, RC := 0, parameters := [] } } :=
  ⟨(setResponse_short_default "garbage".toList (by decide)).1,
   (setResponse_short_default "garbage".toList (by decide)).2
     "\n%R1Q,2117,0:".toList (fun _ => 5) 0 3 (by decide) (by decide)⟩

/-! ## Tracking loop -/

/-- Below the threshold `get_measure` runs no recovery: it goes straight to
the measurement handling. -/
theorem get_measure_no_recovery (searches : List Bool) (inp : MeasureInput) (st : TrackState)
    (h : st.FAIL_COUNT ≤ 100) :
    get_measure searches inp st = measureBody inp st none := by
  simp only [get_measure]
  rw [if_neg (by omega)]

/-- An angles-only outcome (`RC = 1285`) increments the failure count, leaves
the last known coordinates untouched and returns `"2"`. -/
theorem measureBody_1285 (coord : List (List Char)) (st : TrackState)
    (rec : Option (List Char × List Char)) :
    measureBody (.meas 1285 coord) st rec =
      .ok { state := { OLD_COORD := st.OLD_COORD, FAIL_COUNT := st.FAIL_COUNT + 1 },
            ret := "2", recovery := rec } := by
  simp [measureBody]

/-- The other angles-only code (`RC = 1288`) takes the same branch as 1285:
the failure count increments, the last known coordinates stay and `"2"` is
returned. -/
theorem measureBody_1288 (coord : List (List Char)) (st : TrackState)
    (rec : Option (List Char × List Char)) :
    measureBody (.meas 1288 coord) st rec =
      .ok { state := { OLD_COORD := st.OLD_COORD, FAIL_COUNT := st.FAIL_COUNT + 1 },
            ret := "2", recovery := rec } := by
  simp [measureBody]

/-- A full success (`RC = 0`) with a convertible payload records the
coordinates, resets the failure count and returns `"0"`. -/
theorem measureBody_0_ok (coord : List (List Char)) (st : TrackState)
    (rec : Option (List Char × List Char)) (hconv : convertThree coord = .ok) :
    measureBody (.meas 0 coord) st rec =
      .ok { state := { OLD_COORD := coord, FAIL_COUNT := 0 }, ret := "0", recovery := rec } := by
  simp [measureBody, hconv]

/-- An accuracy-unverified success (`RC = 1284`) with a convertible payload
records the coordinates but leaves the failure count unchanged (the
increment in the source is commented out; no reset is performed) and
returns `"1"`. -/
theorem measureBody_1284_ok (coord : List (List Char)) (st : TrackState)
    (rec : Option (List Char × List Char)) (hconv : convertThree coord = .ok) :
    measureBody (.meas 1284 coord) st rec =
      .ok { state := { OLD_COORD := coord, FAIL_COUNT := st.FAIL_COUNT }, ret := "1",
            recovery := rec } := by
  simp [measureBody, hconv]

/-- Any other nonzero return code increments the failure count and returns
`"3"`. -/
theorem measureBody_other (rc : Int) (coord : List (List Char)) (st : TrackState)
    (rec : Option (List Char × List Char))
    (h0 : rc ≠ 0) (h1284 : rc ≠ 1284) (h1285 : rc ≠ 1285) (h1288 : rc ≠ 1288) :
    measureBody (.meas rc coord) st rec =
      .ok { state := { OLD_COORD := st.OLD_COORD, FAIL_COUNT := st.FAIL_COUNT + 1 },
            ret := "3", recovery := rec } := by
  simp [measureBody, h0, h1284, h1285, h1288]

/-- A non-numeric payload on a successful return code raises `ValueError`
inside the `try`: the failure count increments and `"3"` is returned, the
raw coordinates having already been recorded. -/
theorem measureBody_valueError (rc : Int) (coord : List (List Char)) (st : TrackState)
    (rec : Option (List Char × List Char))
    (hrc : rc = 0 ∨ rc = 1284) (hconv : convertThree coord = .valueError) :
    measureBody (.meas rc coord) st rec =
      .ok { state := { OLD_COORD := coord, FAIL_COUNT := st.FAIL_COUNT + 1 }, ret := "3",
            recovery := rec } := by
  rcases hrc with h | h <;> subst h <;> simp [measureBody, hconv]

/-- Above the threshold `get_measure` first runs the recovery search centered
on the first two entries of `OLD_COORD`, then resets the failure count and
handles the measurement. -/
theorem get_measure_recovery_step (searches : List Bool) (inp : MeasureInput)
    (st : TrackState) (c0 c1 : List Char) (rest : List (List Char))
    (hoc : st.OLD_COORD = c0 :: c1 :: rest)
    (hf : 100 < st.FAIL_COUNT)
    (h0 : pyFloatable c0 = true) (h1 : pyFloatable c1 = true)
    (hs : searchLoop searches = true) :
    get_measure searches inp st =
      measureBody inp { OLD_COORD := st.OLD_COORD, FAIL_COUNT := 0 } (some (c0, c1)) := by
  simp only [get_measure, hoc]
  rw [if_pos hf]
  simp only [List.getElem?_cons_zero, List.getElem?_cons_succ, h0, h1, hs]
  simp

/-- Splitting an iterated run of `get_measure` at a list append. -/
theorem runMeasures_append (l1 l2 : List (List Bool × MeasureInput)) (st : TrackState) :
    runMeasures (l1 ++ l2) st =
      (runMeasures l1 st).bind (fun p =>
        (runMeasures l2 p.1).map (fun q => (q.1, p.2 ++ q.2))) := by
  induction l1 generalizing st with
  | nil =>
    cases h : runMeasures l2 st with
    | none => simp [runMeasures, h]
    | some q => simp [runMeasures, h]
  | cons x rest ih =>
    obtain ⟨searches, inp⟩ := x
    simp only [List.cons_append, runMeasures]
    cases h : get_measure searches inp st with
    | ok o =>
      dsimp only [List.append_eq]
      rw [ih o.state]
      cases h2 : runMeasures rest o.state with
      | none => rfl
      | some p =>
        obtain ⟨pst, precs⟩ := p
        simp only [Option.some_bind, Option.map_some']
        cases h3 : runMeasures l2 pst with
        | none => rfl
        | some q => rfl
    | diverge => rfl
    | crash => rfl

/-- A run of consecutive angles-only outcomes that stays at or below the
threshold: no recovery occurs, the failure count rises by one per step and
the last known coordinates never change. -/
theorem runMeasures_1285_quiet (searches : List Bool) (coord : List (List Char)) :
    ∀ (n : Nat) (st : TrackState), st.FAIL_COUNT + n ≤ 101 →
    runMeasures (List.replicate n (searches, MeasureInput.meas 1285 coord)) st =
      some ({ OLD_COORD := st.OLD_COORD, FAIL_COUNT := st.FAIL_COUNT + n },
            List.replicate n none) := by
  intro n
  induction n with
  | zero => intro st h; rfl
  | succ n ih =>
    intro st h
    rw [List.replicate_succ]
    simp only [runMeasures]
    rw [get_measure_no_recovery searches _ st (by omega), measureBody_1285]
    dsimp only
    rw [ih { OLD_COORD := st.OLD_COORD, FAIL_COUNT := st.FAIL_COUNT + 1 } (by simp; omega)]
    simp only [Option.map_some']
    have hn : st.FAIL_COUNT + 1 + n = st.FAIL_COUNT + (n + 1) := by omega
    rw [hn, ← List.replicate_succ]

/-- Claim C1, counterexample: starting from a failure count of 0 with last
known coordinates recorded, 101 consecutive angles-only outcomes produce
zero recovery transitions — not exactly one: the per-call recovery check
`FAIL_COUNT > 100` runs before the measurement, so during the 101st call the
count is still 100 and no recovery fires within those 101 steps. -/
theorem runMeasures_101_angles_only_no_recovery :
    (runMeasures (List.replicate 101 ([true], MeasureInput.meas 1285 []))
        { OLD_COORD := ["1".toList, "2".toList, "3".toList], FAIL_COUNT := 0 }).map
      (fun p => p.2.countP (fun r => r.isSome)) = some 0 ∧ (0 : Nat) ≠ 1 := by
  constructor
  · rw [runMeasures_1285_quiet [true] [] 101
      { OLD_COORD := ["1".toList, "2".toList, "3".toList], FAIL_COUNT := 0 } (by norm_num)]
    simp
  · decide

/-- Claim C1 as amended: from a failure count of 0 with last known coordinates
`[c0, c1, c2]` recorded, a run of 102 consecutive angles-only outcomes
triggers exactly one recovery transition back to searching, at the start of
the 102nd call — the call after the one recording the 101st consecutive
failure; no recovery fires during the first 101 calls (in particular neither
the 100th nor the 101st failure triggers one within its own call); the
recovery search is centered on the last successful full-measurement
coordinates `(c0, c1)`; and once the recovery search loop completes (the
initial attempt may fail and is retried with a wide window until one
succeeds) the failure count is reset to 0, the 102nd angles-only outcome
then raising it to 1. -/
theorem get_measure_recovery_after_101 (c0 c1 c2 : List Char) (coord : List (List Char))
    (searches : List Bool)
    (h0 : pyFloatable c0 = true) (h1 : pyFloatable c1 = true)
    (hs : searchLoop searches = true) :
    runMeasures (List.replicate 102 (searches, MeasureInput.meas 1285 coord))
        { OLD_COORD := [c0, c1, c2], FAIL_COUNT := 0 } =
      some ({ OLD_COORD := [c0, c1, c2], FAIL_COUNT := 1 },
            List.replicate 101 none ++ [some (c0, c1)]) := by
  have hsplit : List.replicate 102 (searches, MeasureInput.meas 1285 coord) =
      List.replicate 101 (searches, MeasureInput.meas 1285 coord) ++
        List.replicate 1 (searches, MeasureInput.meas 1285 coord) := by
    rw [← List.replicate_add]
  rw [hsplit, runMeasures_append]
  rw [runMeasures_1285_quiet searches coord 101
    { OLD_COORD := [c0, c1, c2], FAIL_COUNT := 0 } (by norm_num)]
  simp only [Option.some_bind]
  rw [List.replicate_one]
  simp only [runMeasures]
  rw [get_measure_recovery_step searches (MeasureInput.meas 1285 coord)
    { OLD_COORD := [c0, c1, c2], FAIL_COUNT := 0 + 101 } c0 c1 [c2] rfl (by norm_num) h0 h1 hs]
  rw [measureBody_1285]
  rfl

/-- Witness for C1 (amended): concrete coordinates, an empty angles-only
payload, and a recovery whose first search fails before the wide retry
succeeds — the failure count is still reset. -/
theorem get_measure_recovery_after_101_witness :
    pyFloatable "1".toList = true ∧ pyFloatable "2".toList = true ∧
    searchLoop [false, true] = true ∧
    runMeasures (List.replicate 102 ([false, true], MeasureInput.meas 1285 []))
        { OLD_COORD := ["1".toList, "2".toList, "3".toList], FAIL_COUNT := 0 } =
      some ({ OLD_COORD := ["1".toList, "2".toList, "3".toList], FAIL_COUNT := 1 },
            List.replicate 101 none ++ [some ("1".toList, "2".toList)]) :=
  ⟨by decide, by decide, by decide,
   get_measure_recovery_after_101 "1".toList "2".toList "3".toList [] [false, true]
     (by decide) (by decide) (by decide)⟩

/-- Claim C2, counterexample: a call with return code 1284 and a convertible
coordinate payload leaves the consecutive failure count at its prior value 5
— it is not reset to 0 as the claim states (the reset/increment in the
source's 1284 branch is commented out). -/
theorem get_measure_1284_keeps_count :
    get_measure [] (MeasureInput.meas 1284 ["1".toList, "2".toList, "3".toList])
        { OLD_COORD := ["9".toList], FAIL_COUNT := 5 } =
      .ok { state := { OLD_COORD := ["1".toList, "2".toList, "3".toList], FAIL_COUNT := 5 },
            ret := "1", recovery := none } ∧ (5 : Nat) ≠ 0 :=
  ⟨by decide, by decide⟩

/-- Claim C2 as amended: for every single `get_measure` call entered below the
recovery threshold: return code 0 with a convertible payload resets the
failure count to 0 and records the returned coordinates; return code 1284
records the coordinates but leaves the failure count unchanged (neither
reset nor incremented); return code 1285 — and 1288, which the source routes
through the same angles-only branch — increments the failure count and the
coordinates stay at the last known target coordinates; any other nonzero
return code increments the failure count; and a non-numeric payload on
return code 0 or 1284 also increments it. -/
theorem get_measure_outcome_cases (st : TrackState) (searches : List Bool)
    (coord : List (List Char)) (hf : st.FAIL_COUNT ≤ 100) :
    (convertThree coord = .ok →
       get_measure searches (.meas 0 coord) st =
         .ok { state := { OLD_COORD := coord, FAIL_COUNT := 0 }, ret := "0",
               recovery := none } ∧
       get_measure searches (.meas 1284 coord) st =
         .ok { state := { OLD_COORD := coord, FAIL_COUNT := st.FAIL_COUNT }, ret := "1",
               recovery := none }) ∧
    get_measure searches (.meas 1285 coord) st =
      .ok { state := { OLD_COORD := st.OLD_COORD, FAIL_COUNT := st.FAIL_COUNT + 1 },
            ret := "2", recovery := none } ∧
    get_measure searches (.meas 1288 coord) st =
      .ok { state := { OLD_COORD := st.OLD_COORD, FAIL_COUNT := st.FAIL_COUNT + 1 },
            ret := "2", recovery := none } ∧
    (∀ rc : Int, rc ≠ 0 → rc ≠ 1284 → rc ≠ 1285 → rc ≠ 1288 →
       get_measure searches (.meas rc coord) st =
         .ok { state := { OLD_COORD := st.OLD_COORD, FAIL_COUNT := st.FAIL_COUNT + 1 },
               ret := "3", recovery := none }) ∧
    (∀ rc : Int, (rc = 0 ∨ rc = 1284) → convertThree coord = .valueError →
       get_measure searches (.meas rc coord) st =
         .ok { state := { OLD_COORD := coord, FAIL_COUNT := st.FAIL_COUNT + 1 },
               ret := "3", recovery := none }) := by
  refine ⟨fun hconv => ⟨?_, ?_⟩, ?_, ?_, ?_, ?_⟩
  · rw [get_measure_no_recovery searches _ st hf, measureBody_0_ok coord st none hconv]
  · rw [get_measure_no_recovery searches _ st hf, measureBody_1284_ok coord st none hconv]
  · rw [get_measure_no_recovery searches _ st hf, measureBody_1285]
  · rw [get_measure_no_recovery searches _ st hf, measureBody_1288]
  · intro rc h0 h1284 h1285 h1288
    rw [get_measure_no_recovery searches _ st hf,
      measureBody_other rc coord st none h0 h1284 h1285 h1288]
  · intro rc hrc hconv
    rw [get_measure_no_recovery searches _ st hf,
      measureBody_valueError rc coord st none hrc hconv]

/-- Witness for C2 (amended), at a state with failure count 7: one instance
of every branch, with a convertible payload for codes 0/1284/1285/1288/7 and
a non-numeric payload for the ValueError branch. -/
theorem get_measure_outcome_cases_witness :
    get_measure [] (.meas 0 ["1".toList, "2".toList, "3".toList])
        { OLD_COORD := ["9".toList], FAIL_COUNT := 7 } =
      .ok { state := { OLD_COORD := ["1".toList, "2".toList, "3".toList], FAIL_COUNT := 0 },
            ret := "0", recovery := none } ∧
    get_measure [] (.meas 1284 ["1".toList, "2".toList, "3".toList])
        { OLD_COORD := ["9".toList], FAIL_COUNT := 7 } =
      .ok { state := { OLD_COORD := ["1".toList, "2".toList, "3".toList], FAIL_COUNT := 7 },
            ret := "1", recovery := none } ∧
    get_measure [] (.meas 1285 ["1".toList, "2".toList, "3".toList])
        { OLD_COORD := ["9".toList], FAIL_COUNT := 7 } =
      .ok { state := { OLD_COORD := ["9".toList], FAIL_COUNT := 8 }, ret := "2",
            recovery := none } ∧
    get_measure [] (.meas 1288 ["1".toList, "2".toList, "3".toList])
        { OLD_COORD := ["9".toList], FAIL_COUNT := 7 } =
      .ok { state := { OLD_COORD := ["9".toList], FAIL_COUNT := 8 }, ret := "2",
            recovery := none } ∧
    get_measure [] (.meas 7 ["1".toList, "2".toList, "3".toList])
        { OLD_COORD := ["9".toList], FAIL_COUNT := 7 } =
      .ok { state := { OLD_COORD := ["9".toList], FAIL_COUNT := 8 }, ret := "3",
            recovery := none } ∧
    get_measure [] (.meas 0 ["a".toList])
        { OLD_COORD := ["9".toList], FAIL_COUNT := 7 } =
      .ok { state := { OLD_COORD := ["a".toList], FAIL_COUNT := 8 }, ret := "3",
            recovery := none } :=
  ⟨((get_measure_outcome_cases { OLD_COORD := ["9".toList], FAIL_COUNT := 7 } []
      ["1".toList, "2".toList, "3".toList] (by decide)).1 (by decide)).1,
   ((get_measure_outcome_cases { OLD_COORD := ["9".toList], FAIL_COUNT := 7 } []
      ["1".toList, "2".toList, "3".toList] (by decide)).1 (by decide)).2,
   (get_measure_outcome_cases { OLD_COORD := ["9".toList], FAIL_COUNT := 7 } []
      ["1".toList, "2".toList, "3".toList] (by decide)).2.1,
   (get_measure_outcome_cases { OLD_COORD := ["9".toList], FAIL_COUNT := 7 } []
      ["1".toList, "2".toList, "3".toList] (by decide)).2.2.1,
   (get_measure_outcome_cases { OLD_COORD := ["9".toList], FAIL_COUNT := 7 } []
      ["1".toList, "2".toList, "3".toList] (by decide)).2.2.2.1 7
      (by decide) (by decide) (by decide) (by decide),
   (get_measure_outcome_cases { OLD_COORD := ["9".toList], FAIL_COUNT := 7 } []
      ["a".toList] (by decide)).2.2.2.2 0 (Or.inl rfl) (by decide)⟩

/-! ## Cartesian conversion -/

/-- Claim C8: `compute_carthesian` is a pure function of `(φ, θ, r)` computing
`x = sin(θ)·cos(φ)·r`, `y = sin(θ)·sin(φ)·r`, `z = cos(θ)·r`, each rounded
to 4 decimal places; at `φ = 0`, `θ = π/2`, `r = 10` it yields exactly
`(10, 0, 0)`. -/
theorem compute_carthesian_spec :
    (∀ phi theta radius : ℝ, compute_carthesian phi theta radius =
       (round4 (Real.sin theta * Real.cos phi * radius),
        round4 (Real.sin theta * Real.sin phi * radius),
        round4 (Real.cos theta * radius))) ∧
    compute_carthesian 0 (Real.pi / 2) 10 = (10, 0, 0) := by
  refine ⟨fun _ _ _ => rfl, ?_⟩
  unfold compute_carthesian round4
  rw [Real.sin_pi_div_two, Real.cos_pi_div_two, Real.sin_zero, Real.cos_zero]
  norm_num [Prod.ext_iff, round_eq]
